import Mathlib

/-!
# Kubeconfig composition in `main.go`

A shallow embedding of the string-producing parts of `main.go`:

* the fragment of Go's `fmt.Sprintf` that the program uses (the `%s` verb applied to
  string operands, together with the diagnostics Go emits for a missing operand, a
  surplus operand, a dangling `%` and a verb that does not accept a string);
* the kubeconfig template literal and the render callback handed to `ApplyT`;
* the cluster record literal and the network and subnetwork URLs built from it;
* the join `pulumi.All(...).ApplyT(...)` over deferred values;
* the callback as a closure over the variables of the enclosing function;
* the vocabulary used to talk about the rendered text: lines, blocks under a top-level
  key, list items, occurrences.

Go strings are embedded as Lean strings; all the scanning is done on the list of
characters, `%` being a one-byte character in UTF-8.
-/

namespace Main

/-! ## The fragment of `fmt.Sprintf` used by the program -/

/-- Go's diagnostic for a verb with no operand left: `%!s(MISSING)`. -/
def missingOperand (verb : Char) : List Char :=
  "%!".data ++ verb :: "(MISSING)".data

/-- Go's diagnostic for a verb that does not accept a string: `%!d(string=abc)`. -/
def badVerb (verb : Char) (arg : List Char) : List Char :=
  "%!".data ++ verb :: "(string=".data ++ arg ++ ")".data

/-- The operands left over, as Go lists them: `string=a, string=b`. -/
def extraList : List (List Char) → List Char
  | [] => []
  | [a] => "string=".data ++ a
  | a :: b :: rest => "string=".data ++ a ++ ", ".data ++ extraList (b :: rest)

/-- Go's diagnostic for operands that no verb consumed: `%!(EXTRA string=a, string=b)`;
nothing when every operand was consumed. -/
def extraOperands : List (List Char) → List Char
  | [] => []
  | a :: rest => "%!(EXTRA ".data ++ extraList (a :: rest) ++ ")".data

/-- How one verb prints a string operand: `%s` and `%v` print it as it is, every other
verb is reported as a bad verb. (The verbs `%q`, `%x` and `%X`, flags, widths and
explicit operand indexes are outside the fragment; the program's format strings use
`%s` only.) -/
def printOperand (verb : Char) (arg : List Char) : List Char :=
  if verb = 's' ∨ verb = 'v' then arg else badVerb verb arg

/-- The scanning loop of `fmt.Sprintf` over the format, with string operands.
`afterPercent` says that the previous character was a `%` that opens a verb. -/
def doPrintf : Bool → List Char → List (List Char) → List Char
  | false, [], args => extraOperands args
  | true, [], args => "%!(NOVERB)".data ++ extraOperands args
  | false, c :: rest, args =>
    if c = '%' then doPrintf true rest args else c :: doPrintf false rest args
  | true, c :: rest, args =>
    if c = '%' then '%' :: doPrintf false rest args
    else
      match args with
      | [] => missingOperand c ++ doPrintf false rest []
      | a :: args' => printOperand c a ++ doPrintf false rest args'

/-- The call `fmt.Sprintf(format, args...)` with string operands. -/
def Sprintf (format : String) (args : List String) : String :=
  ⟨doPrintf false format.data (args.map String.data)⟩

/-! ## The kubeconfig template and the render callback -/

/-- The raw string literal passed to `fmt.Sprintf` in the render callback: it starts with
a line break, the lines after the `---` marker are indented by one space, and it ends
with an empty line followed by a single space. -/
def kubeconfigTemplate : String :=
  "\n---\n apiVersion: v1\n clusters:\n - cluster:\n     certificate-authority-data: %s\n     server: https://%s\n   name: %s\n contexts:\n - context:\n     cluster: %s\n     user: %s\n   name: %s\n current-context: %s\n kind: Config\n preferences: \x7b\x7d\n users:\n - name: %s\n   user:\n     exec:\n       apiVersion: client.authentication.k8s.io/v1beta1\n       command: gke-gcloud-auth-plugin\n       installHint: Install gke-gcloud-auth-plugin for use with kubectl by following\n         https://cloud.google.com/kubernetes-engine/docs/how-to/cluster-access-for-kubectl#install_plugin\n       provideClusterInfo: true\n\n "

/-- The operand list of the `fmt.Sprintf` call in the render callback:
`ca, endpoint, name, name, name, name, name, name`. -/
def renderOperands (ca endpoint name : String) : List String :=
  [ca, endpoint, name, name, name, name, name, name]

/-- The `return fmt.Sprintf(...)` statement of the render callback, for a dereferenced
certificate `ca` and string values `endpoint` and `name`. -/
def render (ca endpoint name : String) : String :=
  Sprintf kubeconfigTemplate (renderOperands ca endpoint name)

/-- The ways the render callback can stop with a run-time panic. -/
inductive Panic where
  | nilDereference
  deriving DecidableEq, Repr

/-- Go's `*p` on a `*string`: `none` is the nil pointer. -/
def deref (p : Option String) : Except Panic String :=
  match p with
  | none => .error .nilDereference
  | some s => .ok s

/-- The callback handed to `ApplyT`. The three elements of `args` have the dynamic types
of the joined outputs: `*string` for `MasterAuth.ClusterCaCertificate()`, `string` for
`Endpoint` and for `Name`; so the type assertion `args[0].(*string)` succeeds and the
callback is a function of a string pointer and two strings. It dereferences the pointer
first and then formats the template. -/
def renderCallback (ca : Option String) (endpoint name : String) : Except Panic String :=
  match deref ca with
  | .error p => .error p
  | .ok c => .ok (render c endpoint name)

/-! ## Deferred values and the join -/

/-- A deferred value of the provisioning engine: resolved to a value, or never resolved. -/
inductive Deferred (α : Type) where
  | resolved (v : α)
  | pending
  deriving DecidableEq, Repr

/-- Modelled from the spec: the join `pulumi.All` of the provisioning engine (its code is
not part of the repository), "a combinator that waits for multiple deferred values and
invokes a continuation only once all have resolved": the joined value is resolved exactly
when the three inputs are, and then holds the three values in order. -/
def All (ca : Deferred (Option String)) (endpoint name : Deferred String) :
    Deferred (Option String × String × String) :=
  match ca, endpoint, name with
  | .resolved c, .resolved e, .resolved n => .resolved (c, e, n)
  | _, _, _ => .pending

/-- Modelled from the spec: the continuation registration `ApplyT` of the provisioning
engine (its code is not part of the repository): the callback runs only once the joined
value has resolved; a pending input leaves the output pending without running the
callback, and a panic of the callback produces no output value. -/
def ApplyT {α β : Type} (d : Deferred α) (f : α → Except Panic β) :
    Except Panic (Deferred β) :=
  match d with
  | .pending => .ok .pending
  | .resolved v =>
    match f v with
    | .error p => .error p
    | .ok b => .ok (.resolved b)

/-- The value `secretData` of the program:
`pulumi.All(caCertificate, endpoint, name).ApplyT(callback)`. -/
def secretData (ca : Deferred (Option String)) (endpoint name : Deferred String) :
    Except Panic (Deferred String) :=
  ApplyT (All ca endpoint name) (fun args => renderCallback args.1 args.2.1 args.2.2)

/-- A deferred value that has resolved. -/
def Deferred.isResolved {α : Type} : Deferred α → Bool
  | .resolved _ => true
  | .pending => false

/-- The run produced a resolved output value. -/
def outputResolved (r : Except Panic (Deferred String)) : Bool :=
  match r with
  | .ok (.resolved _) => true
  | _ => false

/-! ## The cluster record and the URLs built from it -/

/-- The struct `networkPolicy`. -/
structure networkPolicy where
  master_ipv4_cidr_block : String
  secondairy_pod_range_name : String
  secondairy_svc_range_name : String
  deriving DecidableEq, Repr

/-- The struct `cluster`. -/
structure cluster where
  name : String
  network : String
  subnetwork : String
  location : String
  releaseChannel : String
  networkPolicy : networkPolicy
  project : String
  deriving DecidableEq, Repr

/-- The record literal bound to the variable `cluster` at the start of the program
("Input details"). -/
def clusterInput : cluster where
  name := "autopilot-mgmt-sbx"
  network := "conro-sbx"
  subnetwork := "cnr-sbx-sub"
  location := "europe-west1"
  releaseChannel := "STABLE"
  networkPolicy :=
    { master_ipv4_cidr_block := "10.4.0.0/28"
      secondairy_pod_range_name := "cnr-sbx1-pod-sub-c2"
      secondairy_svc_range_name := "cnr-sbx1-svc-sub-c2" }
  project := "conro-sbx"

/-- The `Network` argument of the cluster resource. -/
def networkArg (c : cluster) : String :=
  Sprintf "https://www.googleapis.com/compute/v1/projects/%s/global/networks/%s"
    [c.project, c.network]

/-- The `Subnetwork` argument of the cluster resource. -/
def subnetworkArg (c : cluster) : String :=
  Sprintf "https://www.googleapis.com/compute/v1/projects/%s/regions/europe-west1/subnetworks/%s"
    [c.project, c.subnetwork]

/-- The `Location` argument of the cluster resource. -/
def locationArg (c : cluster) : String :=
  c.location

/-! ## The callback as a closure over the enclosing function -/

/-- The `secretName` variable of the program: `fmt.Sprintf("kubeconfig-%s", cluster.name)`. -/
def secretName (c : cluster) : String :=
  Sprintf "kubeconfig-%s" [c.name]

/-- The variables of the enclosing function literal that are in scope where the callback
is written, and which a Go closure may therefore read and assign: `ctx` and the resource
handles `svc_obj`, `cluster_obj`, `secret_obj` (of an unspecified type `Resource`), the
record `cluster`, `secretName`, and the error variable `err`, which the program assigns
again after the callback is created (`none` is `nil`). The package declares no variable,
and the file imports `fmt` and the provisioning packages only, no clock and no random
source. -/
structure Scope (Resource : Type) where
  ctx : Resource
  cluster : cluster
  svc_obj : Resource
  err : Option String
  cluster_obj : Resource
  secretName : String
  secret_obj : Resource

/-- One invocation of the callback as a closure, in state-passing form: it takes the
enclosing scope as it stands when the engine runs the callback and returns the value the
callback returns together with the scope it leaves behind. The body of the callback
names `args` and `fmt.Sprintf` only: it reads no variable of the scope and assigns none. -/
def invoke {Resource : Type} (scope : Scope Resource)
    (ca : Option String) (endpoint name : String) : Except Panic String × Scope Resource :=
  (renderCallback ca endpoint name, scope)

/-- Successive invocations of the callback on one resolved triple, the scope threaded from
each invocation to the next; the returned values are listed in order. -/
def invokeTimes {Resource : Type} :
    Nat → Scope Resource → Option String → String → String →
      List (Except Panic String) × Scope Resource
  | 0, scope, _, _, _ => ([], scope)
  | k + 1, scope, ca, endpoint, name =>
    let first := invoke scope ca endpoint name
    let others := invokeTimes k first.2 ca endpoint name
    (first.1 :: others.1, others.2)

/-! ## Vocabulary for the rendered text -/

/-- Splits a text at every occurrence of the separator; the pieces do not contain it. -/
def splitAt (sep : Char) : List Char → List (List Char)
  | [] => [[]]
  | c :: rest =>
    if c = sep then [] :: splitAt sep rest
    else
      match splitAt sep rest with
      | [] => [[c]]
      | l :: ls => (c :: l) :: ls

/-- The lines of a document: the maximal runs of characters between line feeds. -/
def lines (doc : String) : List String :=
  (splitAt '\n' doc.data).map String.mk

/-- The text `piece` occurs in `doc` as a contiguous run of characters. -/
def occursIn (piece doc : String) : Prop :=
  piece.data <:+: doc.data

/-- The document `doc` starts with the text `piece`. -/
def startsWith (doc piece : String) : Prop :=
  piece.data <+: doc.data

/-- The number of operand-consuming verbs met by the scan of `doPrintf` in a format. -/
def countVerbs : Bool → List Char → Nat
  | _, [] => 0
  | false, c :: rest => if c = '%' then countVerbs true rest else countVerbs false rest
  | true, c :: rest => if c = '%' then countVerbs false rest else countVerbs false rest + 1

/-- The number of substitution slots of a format string. -/
def slotCount (format : String) : Nat :=
  countVerbs false format.data

/-- A line that sets a key at the top level of the document, where keys are indented by
one space: a space followed by a character that is neither a space nor a dash. -/
def isTopLevelKey (line : String) : Bool :=
  match line.data with
  | a :: b :: _ => a == ' ' && b != ' ' && b != '-'
  | _ => false

/-- A line that opens an item of a list placed under a top-level key: ` - ...`. -/
def opensItem (line : String) : Bool :=
  " - ".data.isPrefixOf line.data

/-- A line that sets the top-level key `key`: ` key:` followed by anything. -/
def setsKey (key line : String) : Bool :=
  (" " ++ key ++ ":").data.isPrefixOf line.data

/-- The block under the top-level key `key`: the lines that follow the first line
` key:`, up to the next line that sets a top-level key. -/
def blockUnder (key : String) (ls : List String) : List String :=
  ((ls.dropWhile (fun l => l != " " ++ key ++ ":")).drop 1).takeWhile
    (fun l => !isTopLevelKey l)

/-- The number of list items under the top-level key `key`. -/
def itemCount (key : String) (ls : List String) : Nat :=
  (blockUnder key ls).countP opensItem

/-- The part of a URL path that follows the path element `key`. -/
def segmentAfter (key : String) (url : String) : Option String :=
  match ((splitAt '/' url.data).dropWhile (fun s => s != key.data)).drop 1 with
  | [] => none
  | s :: _ => some ⟨s⟩


/-! ## Scanning lemmas -/

theorem doPrintf_literal (lit rest : List Char) (args : List (List Char))
    (h : '%' ∉ lit) :
    doPrintf false (lit ++ rest) args = lit ++ doPrintf false rest args := by
  induction lit with
  | nil => rfl
  | cons c lit ih =>
    have hc : c ≠ '%' := fun e => h (by simp [e])
    have hl : '%' ∉ lit := fun e => h (by simp [e])
    simp [doPrintf, hc, ih hl]

theorem doPrintf_verb_s (rest a : List Char) (args : List (List Char)) :
    doPrintf false ('%' :: 's' :: rest) (a :: args) = a ++ doPrintf false rest args := by
  simp [doPrintf, printOperand]

theorem doPrintf_slot (lit rest a : List Char) (args : List (List Char))
    (h : '%' ∉ lit) :
    doPrintf false (lit ++ '%' :: 's' :: rest) (a :: args)
      = lit ++ (a ++ doPrintf false rest args) := by
  rw [doPrintf_literal lit _ _ h, doPrintf_verb_s]

theorem doPrintf_tail (lit : List Char) (h : '%' ∉ lit) :
    doPrintf false lit [] = lit := by
  have := doPrintf_literal lit [] [] h
  simpa [doPrintf, extraOperands] using this

set_option maxRecDepth 100000 in
theorem kubeconfigTemplate_data :
    kubeconfigTemplate.data =
      "\n---\n apiVersion: v1\n clusters:\n - cluster:\n     certificate-authority-data: ".data
        ++ '%' :: 's' :: ("\n     server: https://".data
        ++ '%' :: 's' :: ("\n   name: ".data
        ++ '%' :: 's' :: ("\n contexts:\n - context:\n     cluster: ".data
        ++ '%' :: 's' :: ("\n     user: ".data
        ++ '%' :: 's' :: ("\n   name: ".data
        ++ '%' :: 's' :: ("\n current-context: ".data
        ++ '%' :: 's' :: ("\n kind: Config\n preferences: \x7b\x7d\n users:\n - name: ".data
        ++ '%' :: 's' :: "\n   user:\n     exec:\n       apiVersion: client.authentication.k8s.io/v1beta1\n       command: gke-gcloud-auth-plugin\n       installHint: Install gke-gcloud-auth-plugin for use with kubectl by following\n         https://cloud.google.com/kubernetes-engine/docs/how-to/cluster-access-for-kubectl#install_plugin\n       provideClusterInfo: true\n\n ".data))))))) := by
  rfl

set_option maxRecDepth 100000 in
theorem render_data (ca endpoint name : String) :
    (render ca endpoint name).data =
      "\n---\n apiVersion: v1\n clusters:\n - cluster:\n     certificate-authority-data: ".data
        ++ (ca.data ++ ("\n     server: https://".data
        ++ (endpoint.data ++ ("\n   name: ".data
        ++ (name.data ++ ("\n contexts:\n - context:\n     cluster: ".data
        ++ (name.data ++ ("\n     user: ".data
        ++ (name.data ++ ("\n   name: ".data
        ++ (name.data ++ ("\n current-context: ".data
        ++ (name.data ++ ("\n kind: Config\n preferences: \x7b\x7d\n users:\n - name: ".data
        ++ (name.data ++ "\n   user:\n     exec:\n       apiVersion: client.authentication.k8s.io/v1beta1\n       command: gke-gcloud-auth-plugin\n       installHint: Install gke-gcloud-auth-plugin for use with kubectl by following\n         https://cloud.google.com/kubernetes-engine/docs/how-to/cluster-access-for-kubectl#install_plugin\n       provideClusterInfo: true\n\n ".data))))))))))))))) := by
  show doPrintf false kubeconfigTemplate.data
    ((renderOperands ca endpoint name).map String.data) = _
  rw [kubeconfigTemplate_data]
  simp only [renderOperands, List.map]
  rw [doPrintf_slot _ _ _ _ (by decide), doPrintf_slot _ _ _ _ (by decide),
    doPrintf_slot _ _ _ _ (by decide), doPrintf_slot _ _ _ _ (by decide),
    doPrintf_slot _ _ _ _ (by decide), doPrintf_slot _ _ _ _ (by decide),
    doPrintf_slot _ _ _ _ (by decide), doPrintf_slot _ _ _ _ (by decide),
    doPrintf_tail _ (by decide)]


/-! ## Lemmas on lines -/

theorem splitAt_ne_nil (sep : Char) (l : List Char) : splitAt sep l ≠ [] := by
  cases l with
  | nil => simp [splitAt]
  | cons c rest =>
    by_cases hc : c = sep
    · simp [splitAt, hc]
    · cases hs : splitAt sep rest <;> simp [splitAt, hc, hs]

theorem splitAt_append_sep (sep : Char) (a b : List Char) :
    splitAt sep (a ++ sep :: b) = splitAt sep a ++ splitAt sep b := by
  induction a with
  | nil => simp [splitAt]
  | cons c a ih =>
    by_cases hc : c = sep
    · simp [splitAt, hc, ih]
    · cases hs : splitAt sep a with
      | nil => exact absurd hs (splitAt_ne_nil sep a)
      | cons l ls => simp [splitAt, hc, ih, hs]

theorem splitAt_of_not_mem (sep : Char) (l : List Char) (h : sep ∉ l) :
    splitAt sep l = [l] := by
  induction l with
  | nil => rfl
  | cons c l ih =>
    have hc : c ≠ sep := fun e => h (by simp [e])
    have hl : sep ∉ l := fun e => h (by simp [e])
    simp [splitAt, hc, ih hl]

theorem splitAt_line (sep : Char) (l rest : List Char) (h : sep ∉ l) :
    splitAt sep (l ++ sep :: rest) = l :: splitAt sep rest := by
  rw [splitAt_append_sep, splitAt_of_not_mem sep l h]
  rfl

theorem not_mem_append_data (c : Char) (lit : List Char) (s : String)
    (hl : c ∉ lit) (hs : c ∉ s.data) : c ∉ lit ++ s.data := by
  simp [hl, hs]

theorem mk_append_data (lit s : String) : String.mk (lit.data ++ s.data) = lit ++ s := by
  apply String.ext
  simp [String.data_append]

set_option maxRecDepth 100000 in
theorem render_data_lines (ca endpoint name : String) :
    (render ca endpoint name).data =
      [] ++ '\n' :: ("---".data ++ '\n' :: (" apiVersion: v1".data ++ '\n' ::
      (" clusters:".data ++ '\n' :: (" - cluster:".data ++ '\n' ::
      (("     certificate-authority-data: ".data ++ ca.data) ++ '\n' ::
      (("     server: https://".data ++ endpoint.data) ++ '\n' ::
      (("   name: ".data ++ name.data) ++ '\n' ::
      (" contexts:".data ++ '\n' :: (" - context:".data ++ '\n' ::
      (("     cluster: ".data ++ name.data) ++ '\n' ::
      (("     user: ".data ++ name.data) ++ '\n' ::
      (("   name: ".data ++ name.data) ++ '\n' ::
      ((" current-context: ".data ++ name.data) ++ '\n' ::
      (" kind: Config".data ++ '\n' :: (" preferences: \x7b\x7d".data ++ '\n' ::
      (" users:".data ++ '\n' ::
      ((" - name: ".data ++ name.data) ++ '\n' ::
      ("   user:".data ++ '\n' :: ("     exec:".data ++ '\n' ::
      ("       apiVersion: client.authentication.k8s.io/v1beta1".data ++ '\n' ::
      ("       command: gke-gcloud-auth-plugin".data ++ '\n' ::
      ("       installHint: Install gke-gcloud-auth-plugin for use with kubectl by following".data ++ '\n' ::
      ("         https://cloud.google.com/kubernetes-engine/docs/how-to/cluster-access-for-kubectl#install_plugin".data ++ '\n' ::
      ("       provideClusterInfo: true".data ++ '\n' ::
      ([] ++ '\n' :: " ".data))))))))))))))))))))))))) := by
  rw [render_data]
  rfl


theorem mk_data (s : String) : String.mk s.data = s := rfl

set_option maxRecDepth 100000 in
theorem lines_render (ca endpoint name : String)
    (hca : '\n' ∉ ca.data) (hep : '\n' ∉ endpoint.data) (hname : '\n' ∉ name.data) :
    lines (render ca endpoint name) =
      ["", "---", " apiVersion: v1", " clusters:", " - cluster:",
        "     certificate-authority-data: " ++ ca,
        "     server: https://" ++ endpoint,
        "   name: " ++ name,
        " contexts:", " - context:",
        "     cluster: " ++ name,
        "     user: " ++ name,
        "   name: " ++ name,
        " current-context: " ++ name,
        " kind: Config", " preferences: \x7b\x7d", " users:",
        " - name: " ++ name,
        "   user:", "     exec:",
        "       apiVersion: client.authentication.k8s.io/v1beta1",
        "       command: gke-gcloud-auth-plugin",
        "       installHint: Install gke-gcloud-auth-plugin for use with kubectl by following",
        "         https://cloud.google.com/kubernetes-engine/docs/how-to/cluster-access-for-kubectl#install_plugin",
        "       provideClusterInfo: true", "", " "] := by
  unfold lines
  rw [render_data_lines]
  rw [splitAt_line _ _ _ (by decide), splitAt_line _ _ _ (by decide),
    splitAt_line _ _ _ (by decide), splitAt_line _ _ _ (by decide),
    splitAt_line _ _ _ (by decide),
    splitAt_line _ _ _ (not_mem_append_data _ _ _ (by decide) hca),
    splitAt_line _ _ _ (not_mem_append_data _ _ _ (by decide) hep),
    splitAt_line _ _ _ (not_mem_append_data _ _ _ (by decide) hname),
    splitAt_line _ _ _ (by decide), splitAt_line _ _ _ (by decide),
    splitAt_line _ _ _ (not_mem_append_data _ _ _ (by decide) hname),
    splitAt_line _ _ _ (not_mem_append_data _ _ _ (by decide) hname),
    splitAt_line _ _ _ (not_mem_append_data _ _ _ (by decide) hname),
    splitAt_line _ _ _ (not_mem_append_data _ _ _ (by decide) hname),
    splitAt_line _ _ _ (by decide), splitAt_line _ _ _ (by decide),
    splitAt_line _ _ _ (by decide),
    splitAt_line _ _ _ (not_mem_append_data _ _ _ (by decide) hname),
    splitAt_line _ _ _ (by decide), splitAt_line _ _ _ (by decide),
    splitAt_line _ _ _ (by decide), splitAt_line _ _ _ (by decide),
    splitAt_line _ _ _ (by decide), splitAt_line _ _ _ (by decide),
    splitAt_line _ _ _ (by decide), splitAt_line _ _ _ (by decide),
    splitAt_of_not_mem _ _ (by decide)]
  simp only [List.map, mk_append_data, mk_data]
  rfl


theorem map_mk_append (a b : List (List Char)) :
    (a ++ b).map String.mk = a.map String.mk ++ b.map String.mk := by
  simp

set_option maxRecDepth 100000 in
/-- The lines of every rendered document start with the fixed header of the template. -/
theorem lines_render_head (ca endpoint name : String) :
    ∃ rest, lines (render ca endpoint name)
      = "" :: "---" :: " apiVersion: v1" :: " clusters:" :: " - cluster:" :: rest := by
  unfold lines
  rw [render_data_lines]
  rw [splitAt_line _ _ _ (by decide), splitAt_line _ _ _ (by decide),
    splitAt_line _ _ _ (by decide), splitAt_line _ _ _ (by decide),
    splitAt_line _ _ _ (by decide)]
  exact ⟨_, rfl⟩

set_option maxRecDepth 100000 in
/-- The lines of every rendered document have, right after the text substituted for
`current-context`, the three fixed lines that precede the user entry. -/
theorem lines_render_middle (ca endpoint name : String) :
    ∃ before after, lines (render ca endpoint name)
      = before ++ " kind: Config" :: " preferences: \x7b\x7d" :: " users:" :: after := by
  have h : (render ca endpoint name).data =
      ("\n---\n apiVersion: v1\n clusters:\n - cluster:\n     certificate-authority-data: ".data
        ++ (ca.data ++ ("\n     server: https://".data
        ++ (endpoint.data ++ ("\n   name: ".data
        ++ (name.data ++ ("\n contexts:\n - context:\n     cluster: ".data
        ++ (name.data ++ ("\n     user: ".data
        ++ (name.data ++ ("\n   name: ".data
        ++ (name.data ++ ("\n current-context: ".data
        ++ name.data)))))))))))))
      ++ '\n' :: (" kind: Config".data ++ '\n' :: (" preferences: \x7b\x7d".data ++ '\n' ::
        (" users:".data ++ '\n' :: ((" - name: ".data ++ name.data) ++ "\n   user:\n     exec:\n       apiVersion: client.authentication.k8s.io/v1beta1\n       command: gke-gcloud-auth-plugin\n       installHint: Install gke-gcloud-auth-plugin for use with kubectl by following\n         https://cloud.google.com/kubernetes-engine/docs/how-to/cluster-access-for-kubectl#install_plugin\n       provideClusterInfo: true\n\n ".data)))) := by
    rw [render_data]
    simp only [List.append_assoc]
    rfl
  unfold lines
  rw [h, splitAt_append_sep, splitAt_line _ _ _ (by decide), splitAt_line _ _ _ (by decide),
    splitAt_line _ _ _ (by decide), map_mk_append]
  exact ⟨_, _, rfl⟩

set_option maxRecDepth 100000 in
/-- The lines of every rendered document end with the fixed user block of the template. -/
theorem lines_render_tail (ca endpoint name : String) :
    ∃ before, lines (render ca endpoint name)
      = before ++ ["   user:", "     exec:",
          "       apiVersion: client.authentication.k8s.io/v1beta1",
          "       command: gke-gcloud-auth-plugin",
          "       installHint: Install gke-gcloud-auth-plugin for use with kubectl by following",
          "         https://cloud.google.com/kubernetes-engine/docs/how-to/cluster-access-for-kubectl#install_plugin",
          "       provideClusterInfo: true", "", " "] := by
  have h : (render ca endpoint name).data =
      ("\n---\n apiVersion: v1\n clusters:\n - cluster:\n     certificate-authority-data: ".data
        ++ (ca.data ++ ("\n     server: https://".data
        ++ (endpoint.data ++ ("\n   name: ".data
        ++ (name.data ++ ("\n contexts:\n - context:\n     cluster: ".data
        ++ (name.data ++ ("\n     user: ".data
        ++ (name.data ++ ("\n   name: ".data
        ++ (name.data ++ ("\n current-context: ".data
        ++ (name.data ++ ("\n kind: Config\n preferences: \x7b\x7d\n users:\n - name: ".data
        ++ name.data)))))))))))))))
      ++ '\n' :: "   user:\n     exec:\n       apiVersion: client.authentication.k8s.io/v1beta1\n       command: gke-gcloud-auth-plugin\n       installHint: Install gke-gcloud-auth-plugin for use with kubectl by following\n         https://cloud.google.com/kubernetes-engine/docs/how-to/cluster-access-for-kubectl#install_plugin\n       provideClusterInfo: true\n\n ".data := by
    rw [render_data]
    simp only [List.append_assoc]
  unfold lines
  rw [h, splitAt_append_sep, map_mk_append]
  exact ⟨_, rfl⟩


theorem subnetworkArg_data (c : cluster) :
    (subnetworkArg c).data =
      "https://www.googleapis.com/compute/v1/projects/".data
        ++ (c.project.data ++ ("/regions/europe-west1/subnetworks/".data
        ++ c.subnetwork.data)) := by
  show doPrintf false
    ("https://www.googleapis.com/compute/v1/projects/".data
      ++ '%' :: 's' :: ("/regions/europe-west1/subnetworks/".data ++ '%' :: 's' :: []))
    [c.project.data, c.subnetwork.data] = _
  rw [doPrintf_slot _ _ _ _ (by decide), doPrintf_slot _ _ _ _ (by decide)]
  simp [doPrintf, extraOperands]

set_option maxRecDepth 100000 in
/-- The start of every rendered document, up to the end of the `server` line. -/
theorem render_data_cluster (ca endpoint name : String) :
    ∃ rest, (render ca endpoint name).data =
      "\n---\n apiVersion: v1\n clusters:\n - cluster:\n     certificate-authority-data: ".data
        ++ (ca.data ++ ("\n     server: https://".data ++ (endpoint.data ++ '\n' :: rest))) :=
  ⟨_, by rw [render_data]; rfl⟩

theorem infix_head (l rest : List Char) : l <:+: l ++ rest :=
  (List.prefix_append l rest).isInfix

theorem infix_skip (a : List Char) {l s : List Char} (h : l <:+: s) : l <:+: a ++ s :=
  h.trans (List.suffix_append a s).isInfix

set_option maxRecDepth 100000 in
/-- The rendered document as a text: the fixed pieces of the template with the three
values between them. -/
theorem render_text (ca endpoint name : String) :
    render ca endpoint name =
      "\n---\n apiVersion: v1\n clusters:\n - cluster:\n     certificate-authority-data: " ++ ca
        ++ "\n     server: https://" ++ endpoint
        ++ "\n   name: " ++ name
        ++ "\n contexts:\n - context:\n     cluster: " ++ name
        ++ "\n     user: " ++ name
        ++ "\n   name: " ++ name
        ++ "\n current-context: " ++ name
        ++ "\n kind: Config\n preferences: \x7b\x7d\n users:\n - name: " ++ name
        ++ "\n   user:\n     exec:\n       apiVersion: client.authentication.k8s.io/v1beta1\n       command: gke-gcloud-auth-plugin\n       installHint: Install gke-gcloud-auth-plugin for use with kubectl by following\n         https://cloud.google.com/kubernetes-engine/docs/how-to/cluster-access-for-kubectl#install_plugin\n       provideClusterInfo: true\n\n " := by
  apply String.ext
  rw [render_data]
  simp only [String.data_append, List.append_assoc]

/-! ## The claims -/

set_option maxRecDepth 100000 in
/-- C1: for every triple, the rendered document opens with the header of the template, then
the line `certificate-authority-data: ` followed by `ca` exactly as given, then the line
`server: https://` followed by `endpoint` exactly as given, each closed by the line break
of the template; on the triple of the example the two lines are
`certificate-authority-data: BASE64CERTDATA` and `server: https://34.1.2.3`. -/
theorem field_fidelity :
    (∀ ca endpoint name : String,
      startsWith (render ca endpoint name)
        ("\n---\n apiVersion: v1\n clusters:\n - cluster:\n     certificate-authority-data: "
          ++ ca ++ "\n     server: https://" ++ endpoint ++ "\n")
      ∧ occursIn ("\n     certificate-authority-data: " ++ ca ++ "\n")
          (render ca endpoint name)
      ∧ occursIn ("\n     server: https://" ++ endpoint ++ "\n") (render ca endpoint name))
    ∧ "     certificate-authority-data: BASE64CERTDATA"
        ∈ lines (render "BASE64CERTDATA" "34.1.2.3" "autopilot-mgmt-sbx")
    ∧ "     server: https://34.1.2.3"
        ∈ lines (render "BASE64CERTDATA" "34.1.2.3" "autopilot-mgmt-sbx") := by
  refine ⟨fun ca endpoint name => ?_, by decide, by decide⟩
  obtain ⟨rest, h⟩ := render_data_cluster ca endpoint name
  refine ⟨⟨rest, ?_⟩, ⟨"\n---\n apiVersion: v1\n clusters:\n - cluster:".data,
    "     server: https://".data ++ (endpoint.data ++ '\n' :: rest), ?_⟩,
    ⟨"\n---\n apiVersion: v1\n clusters:\n - cluster:\n     certificate-authority-data: ".data
      ++ ca.data, rest, ?_⟩⟩
  all_goals
    rw [h]
    simp only [String.data_append, List.append_assoc]
    rfl

set_option maxRecDepth 100000 in
/-- C2: for every triple, the rendered document is the template text with the input name,
unchanged, in each of the six places that name the cluster: the cluster entry's `name`,
the context entry's `cluster`, `user` and `name`, the value of `current-context`, and the
user entry's `name`. -/
theorem name_consistency (ca endpoint name : String) :
    render ca endpoint name =
      "\n---\n apiVersion: v1\n clusters:\n - cluster:\n     certificate-authority-data: " ++ ca
        ++ "\n     server: https://" ++ endpoint
        ++ "\n   name: " ++ name
        ++ "\n contexts:\n - context:\n     cluster: " ++ name
        ++ "\n     user: " ++ name
        ++ "\n   name: " ++ name
        ++ "\n current-context: " ++ name
        ++ "\n kind: Config\n preferences: \x7b\x7d\n users:\n - name: " ++ name
        ++ "\n   user:\n     exec:\n       apiVersion: client.authentication.k8s.io/v1beta1\n       command: gke-gcloud-auth-plugin\n       installHint: Install gke-gcloud-auth-plugin for use with kubectl by following\n         https://cloud.google.com/kubernetes-engine/docs/how-to/cluster-access-for-kubectl#install_plugin\n       provideClusterInfo: true\n\n " := by
  apply String.ext
  rw [render_data]
  simp only [String.data_append, List.append_assoc]


/-- C3: for every triple, whatever the inputs are, the lines of the rendered document
contain `apiVersion: v1` and `kind: Config` (with the one-space indentation of the
template), and end with the user exec block of the template, verbatim: the lines
`apiVersion: client.authentication.k8s.io/v1beta1`, `command: gke-gcloud-auth-plugin` and
`provideClusterInfo: true` under `user:` and `exec:`. -/
theorem fixed_lines (ca endpoint name : String) :
    " apiVersion: v1" ∈ lines (render ca endpoint name)
    ∧ " kind: Config" ∈ lines (render ca endpoint name)
    ∧ "       apiVersion: client.authentication.k8s.io/v1beta1" ∈ lines (render ca endpoint name)
    ∧ "       command: gke-gcloud-auth-plugin" ∈ lines (render ca endpoint name)
    ∧ "       provideClusterInfo: true" ∈ lines (render ca endpoint name)
    ∧ ["   user:", "     exec:",
        "       apiVersion: client.authentication.k8s.io/v1beta1",
        "       command: gke-gcloud-auth-plugin",
        "       installHint: Install gke-gcloud-auth-plugin for use with kubectl by following",
        "         https://cloud.google.com/kubernetes-engine/docs/how-to/cluster-access-for-kubectl#install_plugin",
        "       provideClusterInfo: true", "", " "] <:+ lines (render ca endpoint name) := by
  obtain ⟨r1, h1⟩ := lines_render_head ca endpoint name
  obtain ⟨b2, a2, h2⟩ := lines_render_middle ca endpoint name
  obtain ⟨b3, h3⟩ := lines_render_tail ca endpoint name
  refine ⟨?_, ?_, ?_, ?_, ?_, ?_⟩
  · rw [h1]; simp
  · rw [h2]; simp
  · rw [h3]; simp
  · rw [h3]; simp
  · rw [h3]; simp
  · exact ⟨b3, h3.symm⟩

set_option maxRecDepth 100000 in
/-- C4, refuted as stated: the template does not have seven substitution slots, and the
name `Z`, whose letter occurs nowhere in the template, does not occur five times in the
document rendered for it. -/
theorem slots_not_seven :
    slotCount kubeconfigTemplate ≠ 7
    ∧ kubeconfigTemplate.data.count 'Z' = 0
    ∧ (render "" "" "Z").data.count 'Z' ≠ 5 := by
  decide

set_option maxRecDepth 100000 in
/-- C4, amended: the template has exactly eight substitution slots, filled by the
certificate, the endpoint and six copies of the name; so for every triple the name is
substituted exactly six times: every character occurs in the document as often as in the
fixed text, plus its occurrences in the certificate and in the endpoint, plus six times its
occurrences in the name. -/
theorem eight_slots :
    slotCount kubeconfigTemplate = 8
    ∧ (∀ ca endpoint name : String,
        renderOperands ca endpoint name = ca :: endpoint :: List.replicate 6 name)
    ∧ (∀ (ca endpoint name : String) (c : Char),
        (render ca endpoint name).data.count c
          = (render "" "" "").data.count c + ca.data.count c + endpoint.data.count c
            + 6 * name.data.count c)
    ∧ (render "" "" "Z").data.count 'Z' = 6 := by
  refine ⟨by decide, fun _ _ _ => rfl, fun ca endpoint name c => ?_, by decide⟩
  rw [render_data, render_data]
  have e : ("" : String).data = [] := rfl
  simp only [List.count_append, e, List.count_nil]
  omega

set_option maxRecDepth 100000 in
/-- C5: for every triple whose strings contain no line feed, the rendered document has
exactly one list item under `clusters`, one under `contexts` and one under `users`, these
being the only three lines of the document that open a list item, and the three entries
carry the same cluster name. -/
theorem one_entry_per_list (ca endpoint name : String)
    (hca : '\n' ∉ ca.data) (hep : '\n' ∉ endpoint.data) (hname : '\n' ∉ name.data) :
    itemCount "clusters" (lines (render ca endpoint name)) = 1
    ∧ itemCount "contexts" (lines (render ca endpoint name)) = 1
    ∧ itemCount "users" (lines (render ca endpoint name)) = 1
    ∧ (lines (render ca endpoint name)).countP opensItem = 3
    ∧ blockUnder "clusters" (lines (render ca endpoint name)) =
        [" - cluster:", "     certificate-authority-data: " ++ ca,
          "     server: https://" ++ endpoint, "   name: " ++ name]
    ∧ blockUnder "contexts" (lines (render ca endpoint name)) =
        [" - context:", "     cluster: " ++ name, "     user: " ++ name, "   name: " ++ name]
    ∧ (blockUnder "users" (lines (render ca endpoint name))).take 1
        = [" - name: " ++ name] := by
  rw [lines_render ca endpoint name hca hep hname]
  refine ⟨?_, ?_, ?_, ?_, ?_, ?_, ?_⟩ <;> rfl

set_option maxRecDepth 100000 in
/-- Witness of C5 on the triple of the example. -/
theorem one_entry_per_list_witness :
    ('\n' ∉ "BASE64CERTDATA".data ∧ '\n' ∉ "34.1.2.3".data
      ∧ '\n' ∉ "autopilot-mgmt-sbx".data)
    ∧ (itemCount "clusters"
          (lines (render "BASE64CERTDATA" "34.1.2.3" "autopilot-mgmt-sbx")) = 1
      ∧ itemCount "contexts"
          (lines (render "BASE64CERTDATA" "34.1.2.3" "autopilot-mgmt-sbx")) = 1
      ∧ itemCount "users"
          (lines (render "BASE64CERTDATA" "34.1.2.3" "autopilot-mgmt-sbx")) = 1
      ∧ (lines (render "BASE64CERTDATA" "34.1.2.3" "autopilot-mgmt-sbx")).countP opensItem = 3
      ∧ blockUnder "clusters"
          (lines (render "BASE64CERTDATA" "34.1.2.3" "autopilot-mgmt-sbx")) =
          [" - cluster:", "     certificate-authority-data: " ++ "BASE64CERTDATA",
            "     server: https://" ++ "34.1.2.3", "   name: " ++ "autopilot-mgmt-sbx"]
      ∧ blockUnder "contexts"
          (lines (render "BASE64CERTDATA" "34.1.2.3" "autopilot-mgmt-sbx")) =
          [" - context:", "     cluster: " ++ "autopilot-mgmt-sbx",
            "     user: " ++ "autopilot-mgmt-sbx", "   name: " ++ "autopilot-mgmt-sbx"]
      ∧ (blockUnder "users"
          (lines (render "BASE64CERTDATA" "34.1.2.3" "autopilot-mgmt-sbx"))).take 1
          = [" - name: " ++ "autopilot-mgmt-sbx"]) :=
  ⟨⟨by decide, by decide, by decide⟩,
    one_entry_per_list "BASE64CERTDATA" "34.1.2.3" "autopilot-mgmt-sbx"
      (by decide) (by decide) (by decide)⟩


/-- C6, refuted as stated: with the three inputs resolved, the certificate to a nil
pointer, the callback panics and the output is not resolved. -/
theorem resolved_inputs_without_output :
    (Deferred.resolved (none : Option String)).isResolved = true
    ∧ (Deferred.resolved "34.1.2.3").isResolved = true
    ∧ (Deferred.resolved "autopilot-mgmt-sbx").isResolved = true
    ∧ outputResolved (secretData (.resolved none) (.resolved "34.1.2.3")
        (.resolved "autopilot-mgmt-sbx")) = false
    ∧ secretData (.resolved none) (.resolved "34.1.2.3") (.resolved "autopilot-mgmt-sbx")
        = .error .nilDereference :=
  ⟨rfl, rfl, rfl, rfl, rfl⟩

/-- C6, amended: the composed output is resolved if and only if the three inputs are
resolved and the certificate is a non-nil pointer, and it then holds the rendered
document; if any one input never resolves the callback is not run and the output stays
pending, with no document and no error value. -/
theorem join_resolves :
    (∀ c e n : String, secretData (.resolved (some c)) (.resolved e) (.resolved n)
        = .ok (.resolved (render c e n)))
    ∧ (∀ endpoint name, secretData .pending endpoint name = .ok .pending)
    ∧ (∀ ca name, secretData ca .pending name = .ok .pending)
    ∧ (∀ ca endpoint, secretData ca endpoint .pending = .ok .pending)
    ∧ (∀ ca endpoint name, outputResolved (secretData ca endpoint name) = true ↔
        ∃ c e n, ca = .resolved (some c) ∧ endpoint = .resolved e ∧ name = .resolved n) := by
  refine ⟨fun _ _ _ => rfl, fun _ _ => rfl, ?_, ?_, ?_⟩
  · intro ca name
    cases ca <;> rfl
  · intro ca endpoint
    cases ca <;> cases endpoint <;> rfl
  · intro ca endpoint name
    constructor
    · intro h
      match ca, endpoint, name, h with
      | .resolved (some c), .resolved e, .resolved n, _ => exact ⟨c, e, n, rfl, rfl, rfl⟩
      | .resolved none, .resolved e, .resolved n, h => exact Bool.noConfusion h
      | .pending, _, _, h => exact Bool.noConfusion h
      | .resolved _, .pending, _, h => exact Bool.noConfusion h
      | .resolved _, .resolved _, .pending, h => exact Bool.noConfusion h
    · rintro ⟨c, e, n, rfl, rfl, rfl⟩
      rfl

set_option maxRecDepth 100000 in
/-- C7: the render is a pure function of the triple. Whatever the enclosing scope holds
when the callback runs (the record, `err`, `secretName`, the handles), an invocation on
the triple returns one and the same document, the fixed text with the three values put
in, and leaves the scope as it was; so two invocations in any two scopes return
byte-identical documents, and any number of successive invocations return that many
copies of the document. -/
theorem render_deterministic {Resource : Type} (ca endpoint name : String) :
    (∀ scope : Scope Resource,
      invoke scope (some ca) endpoint name =
        (.ok ("\n---\n apiVersion: v1\n clusters:\n - cluster:\n     certificate-authority-data: " ++ ca
          ++ "\n     server: https://" ++ endpoint
          ++ "\n   name: " ++ name
          ++ "\n contexts:\n - context:\n     cluster: " ++ name
          ++ "\n     user: " ++ name
          ++ "\n   name: " ++ name
          ++ "\n current-context: " ++ name
          ++ "\n kind: Config\n preferences: \x7b\x7d\n users:\n - name: " ++ name
          ++ "\n   user:\n     exec:\n       apiVersion: client.authentication.k8s.io/v1beta1\n       command: gke-gcloud-auth-plugin\n       installHint: Install gke-gcloud-auth-plugin for use with kubectl by following\n         https://cloud.google.com/kubernetes-engine/docs/how-to/cluster-access-for-kubectl#install_plugin\n       provideClusterInfo: true\n\n "),
          scope))
    ∧ (∀ (p : Option String) (first second : Scope Resource),
        (invoke first p endpoint name).1 = (invoke second p endpoint name).1)
    ∧ (∀ (p : Option String) (k : Nat) (scope : Scope Resource),
        invokeTimes k scope p endpoint name
          = (List.replicate k (invoke scope p endpoint name).1, scope)) := by
  refine ⟨fun scope => ?_, fun _ _ _ => rfl, fun p k => ?_⟩
  · have h := render_text ca endpoint name
    simp only [invoke, renderCallback, deref, h]
  · induction k with
    | zero => intro scope; rfl
    | succ k ih =>
      intro scope
      simp only [invokeTimes, ih, invoke, List.replicate_succ]

set_option maxRecDepth 100000 in
/-- C8: the callback escapes and validates nothing: for every triple of strings it returns
a document, never an error, and each of the three values occurs in the document character
for character; so a name made of `a`, a line feed and ` current-context: b` yields a
document with more than one line setting the top-level key `current-context`. -/
theorem no_escaping :
    (∀ ca endpoint name : String,
      renderCallback (some ca) endpoint name = .ok (render ca endpoint name)
      ∧ occursIn ca (render ca endpoint name)
      ∧ occursIn endpoint (render ca endpoint name)
      ∧ occursIn name (render ca endpoint name))
    ∧ 1 < (lines (render "BASE64CERTDATA" "34.1.2.3" "a\n current-context: b")).countP
        (setsKey "current-context") := by
  refine ⟨fun ca endpoint name => ⟨rfl, ?_, ?_, ?_⟩, by decide⟩
  · unfold occursIn
    rw [render_data]
    exact infix_skip _ (infix_head _ _)
  · unfold occursIn
    rw [render_data]
    exact infix_skip _ (infix_skip _ (infix_skip _ (infix_head _ _)))
  · unfold occursIn
    rw [render_data]
    exact infix_skip _ (infix_skip _ (infix_skip _ (infix_skip _ (infix_skip _
      (infix_head _ _)))))

/-- C9: the callback returns a document exactly when the certificate pointer is not nil:
on a nil pointer it panics on the dereference, whatever the endpoint and the name are, and
on a pointer to a string it returns the rendered document. -/
theorem callback_panics_on_nil (ca : Option String) (endpoint name : String) :
    ((∃ doc, renderCallback ca endpoint name = .ok doc) ↔ ca ≠ none)
    ∧ renderCallback none endpoint name = .error .nilDereference
    ∧ (∀ c, renderCallback (some c) endpoint name = .ok (render c endpoint name)) := by
  refine ⟨?_, rfl, fun _ => rfl⟩
  cases ca with
  | none =>
    constructor
    · rintro ⟨doc, h⟩
      cases h
    · intro h
      exact absurd rfl h
  | some c =>
    constructor
    · intro _ h
      cases h
    · intro _
      exact ⟨_, rfl⟩

set_option maxRecDepth 100000 in
/-- C10: for the configured cluster record, the subnetwork URL is
`https://www.googleapis.com/compute/v1/projects/conro-sbx/regions/europe-west1/subnetworks/cnr-sbx-sub`
and its region segment equals the location passed to the cluster; the segment comes from
the format string: every record gets `/regions/europe-west1/subnetworks/`, and changing the
location field of a record leaves the URL unchanged. -/
theorem subnetwork_region :
    subnetworkArg clusterInput
      = "https://www.googleapis.com/compute/v1/projects/conro-sbx/regions/europe-west1/subnetworks/cnr-sbx-sub"
    ∧ clusterInput.project = "conro-sbx" ∧ clusterInput.subnetwork = "cnr-sbx-sub"
    ∧ locationArg clusterInput = "europe-west1"
    ∧ segmentAfter "regions" (subnetworkArg clusterInput) = some (locationArg clusterInput)
    ∧ (∀ c : cluster, occursIn "/regions/europe-west1/subnetworks/" (subnetworkArg c))
    ∧ (∀ (c : cluster) (l : String), subnetworkArg { c with location := l } = subnetworkArg c) := by
  refine ⟨by decide, by decide, by decide, by decide, by decide, fun c => ?_, fun _ _ => rfl⟩
  unfold occursIn
  rw [subnetworkArg_data]
  exact infix_skip _ (infix_skip _ (infix_head _ _))

end Main
